import Mathlib

/-!
Shallow embedding of the automatic attendance pipeline of `src/vs.py`
(the `open_attendance` view and its helpers), together with proofs of
the specification claims about it.

Modelling conventions:
* Distances, percentages and embeddings are rationals (`ℚ`); a live
  frame supplies the distance of its first detected face to the stored
  encoding directly, standing in for `face_recognition.face_distance`.
* The Tk string variables of the attendance view are fields of
  `Session`; `sid = none` models the empty `sid_var` string, `some id`
  models `str(rec[0])`.
* The texts written to `status_lbl` form the enumeration `Status`, one
  constructor per distinct message the code can set.
* The `attendance` table is a list of rows; the code's
  `INSERT OR IGNORE` against the `UNIQUE(student_id, date)` constraint
  is the function `commit`.
-/

namespace AutoAttendance

/-- `TOLERANCE = 0.4` from the configuration block (lower = stricter). -/
def TOLERANCE : ℚ := 2/5

/-- `REQ_CONSEC = 5`: consecutive matching frames needed to confirm. -/
def REQ_CONSEC : Int := 5

/-- A face embedding; an abstract stand-in for the numeric vectors the
face-recognition library produces. -/
abbrev Emb := ℚ

/-- A row of the `students` table. -/
structure Student where
  id : Nat
  reg_no : String
  name : String
  course : String
  mobile : String
  photo_path : String
deriving DecidableEq, Repr

/-- A row of the `attendance` table. `studentId = none` models an empty
`sid_var` string being inserted as `student_id`. -/
structure AttendanceRecord where
  studentId : Option Nat
  date : String
  time : String
  matchPercentage : ℚ
deriving DecidableEq, Repr

/-- Outcome of one attendance insert, per the spec contract of the
Attendance Ledger (`Committed | AlreadyRecordedToday`). -/
inductive CommitResult where
  | committed
  | alreadyRecordedToday
deriving DecidableEq, Repr

/-- Whether the ledger already holds a row for `(sid, date)`. -/
def hasRecord (L : List AttendanceRecord) (sid : Option Nat) (date : String) : Bool :=
  L.any fun r => r.studentId == sid && r.date == date

/-- The code's `INSERT OR IGNORE INTO attendance ...` under the
`UNIQUE(student_id, date) ON CONFLICT IGNORE` constraint: a row is
appended only when no row with the same `(student_id, date)` exists. -/
def commit (L : List AttendanceRecord) (sid : Option Nat) (date time : String)
    (pct : ℚ) : List AttendanceRecord × CommitResult :=
  if hasRecord L sid date then (L, .alreadyRecordedToday)
  else (L ++ [⟨sid, date, time, pct⟩], .committed)

/-- Distinct texts set on `status_lbl` by the attendance view. -/
inductive Status where
  | waiting
  | studentNotFound
  | photoMissing
  | noFaceInPhoto
  | loadFailed (err : String)
  | loaded
  | scanningQR
  | qrDecoded (payload : String)
  | cameraNotAvailable
  | attendanceSaved (nm : String) (pct : ℚ)
deriving DecidableEq, Repr

/-- The mutable closure state of `open_attendance`: `stored_encoding[0]`,
`running_match[0]`, `consecutive[0]`, the Tk string variables, and the
status label. -/
structure Session where
  stored_encoding : Option Emb
  running_match : Bool
  consecutive : Int
  sid : Option Nat
  nameF : String
  courseF : String
  photoF : String
  regF : String
  status : Status
deriving DecidableEq, Repr

/-- The state of the attendance view when it opens: no candidate, matching
not armed, counter zero, status "Waiting for student...". -/
def initSession : Session :=
  { stored_encoding := none, running_match := false, consecutive := 0,
    sid := none, nameF := "", courseF := "", photoF := "", regF := "",
    status := .waiting }

/-- `pct = (1.0 - max(0.0, min(1.0, float(dist)))) * 100.0` from
`loop_frame`. -/
def pctOf (dist : ℚ) : ℚ := (1 - max 0 (min 1 dist)) * 100

/-- What loading the enrollment photo can yield: the path does not
exist, loading raises (file unreadable), or it loads and face detection
finds the given list of encodings. -/
inductive PhotoOutcome where
  | missing
  | loadFailure (err : String)
  | faces (encs : List Emb)
deriving DecidableEq, Repr

/-- `start_recognition`: arms matching and zeroes the counter, guarded by
`stored_encoding[0] is None or not sid_var.get()`. -/
def start_recognition (s : Session) : Session :=
  if s.stored_encoding.isSome && s.sid.isSome then
    { s with running_match := true, consecutive := 0 }
  else s

/-- `fetch_student(regno)`: look the registration number up in the
`students` table, populate the info fields, then derive the stored face
encoding from the enrollment photo. `db` is the `students` table and
`fs` maps a photo path to what loading it yields. -/
def fetch_student (db : List Student) (fs : String → PhotoOutcome) (s : Session)
    (regno : String) : Session :=
  match db.find? (fun st => st.reg_no == regno) with
  | none =>
      { s with status := .studentNotFound,
               nameF := "", courseF := "", photoF := "", sid := none }
  | some st =>
      let s1 := { s with sid := some st.id, nameF := st.name,
                         courseF := st.course, photoF := st.photo_path }
      if st.photo_path = "" then { s1 with status := .photoMissing }
      else
        match fs st.photo_path with
        | .missing => { s1 with status := .photoMissing }
        | .loadFailure err =>
            { s1 with stored_encoding := none, status := .loadFailed err }
        | .faces [] => { s1 with status := .noFaceInPhoto }
        | .faces (e :: _) =>
            start_recognition { s1 with stored_encoding := some e, status := .loaded }

/-- What one tick of `loop_frame` observes: the camera read failed, or a
frame was read and face extraction found no face (`none`) or a first
face at the given distance from the stored encoding (`some dist`). -/
inductive FrameObs where
  | camFail
  | camOk (faceDist : Option ℚ)
deriving DecidableEq, Repr

/-- One tick of `loop_frame`: when a frame is read and
`stored_encoding[0] is not None and running_match[0]`, a detected face
updates the counter (increment on `dist <= TOLERANCE`, else decrement
floored at 0); reaching `REQ_CONSEC` saves attendance via
`INSERT OR IGNORE`, disarms matching and clears the stored encoding. -/
def loop_frame (s : Session) (L : List AttendanceRecord) (obs : FrameObs)
    (date time : String) : Session × List AttendanceRecord :=
  match obs with
  | .camFail => ({ s with status := .cameraNotAvailable }, L)
  | .camOk faceDist =>
      if s.stored_encoding.isSome && s.running_match then
        match faceDist with
        | none => (s, L)
        | some dist =>
            let pct := pctOf dist
            let c := if dist ≤ TOLERANCE then s.consecutive + 1
                     else max 0 (s.consecutive - 1)
            if REQ_CONSEC ≤ c then
              ({ s with consecutive := c, running_match := false,
                        stored_encoding := none,
                        status := .attendanceSaved s.nameF pct },
               (commit L s.sid date time pct).1)
            else
              ({ s with consecutive := c }, L)
      else (s, L)

/-- What one tick of the QR `scan_loop` observes: the camera read
failed, or a frame was read and barcode decoding produced the given
payload strings. -/
inductive ScanObs where
  | camFail
  | frame (codes : List String)
deriving DecidableEq, Repr

/-- Python's `str.strip()`: drop whitespace from both ends. -/
def pyStrip (s : String) : String :=
  ⟨((s.data.dropWhile Char.isWhitespace).reverse.dropWhile Char.isWhitespace).reverse⟩

/-- One tick of the QR scan: `codes = decode(rgb)`; when codes were
found, `codes[0].data.decode("utf-8").strip()` is the identifier. -/
def decodeTick : ScanObs → Option String
  | .camFail => none
  | .frame [] => none
  | .frame (c :: _) => some (pyStrip c)

/-- The recursive `scan_loop`: poll ticks until the first decoded
payload; further ticks are never consumed. -/
def scan_loop : List ScanObs → Option String
  | [] => none
  | t :: ts =>
      match decodeTick t with
      | some d => some d
      | none => scan_loop ts

/-- `start_qr_scan`: set the scanning status, poll; on the first decode
set `reg_var`, show the payload and fetch that student. -/
def start_qr_scan (db : List Student) (fs : String → PhotoOutcome) (s : Session)
    (ticks : List ScanObs) : Session :=
  let s0 : Session := { s with status := .scanningQR }
  match scan_loop ticks with
  | none => s0
  | some d => fetch_student db fs { s0 with regF := d, status := .qrDecoded d } d

/-- The externally triggered operations of the attendance view: a
scheduled camera tick, a typed fetch (`do_fetch` / Enter on the field,
which strips the text and ignores it when empty), and a QR scan. -/
inductive Event where
  | frame (obs : FrameObs) (date time : String)
  | typedFetch (regno : String)
  | qr (ticks : List ScanObs)

/-- Effect of one event on the session and the ledger. -/
def applyEvent (db : List Student) (fs : String → PhotoOutcome)
    (sl : Session × List AttendanceRecord) (e : Event) :
    Session × List AttendanceRecord :=
  match e with
  | .frame obs date time => loop_frame sl.1 sl.2 obs date time
  | .typedFetch regno =>
      let rn := pyStrip regno
      if rn = "" then sl else (fetch_student db fs sl.1 rn, sl.2)
  | .qr ticks => (start_qr_scan db fs sl.1 ticks, sl.2)

/-- The states the attendance view can reach from opening, under any
sequence of events, for a fixed students table `db` and photo
filesystem `fs`; the ledger may hold arbitrary prior rows. -/
inductive Reachable (db : List Student) (fs : String → PhotoOutcome) :
    Session → List AttendanceRecord → Prop where
  | init (L₀ : List AttendanceRecord) : Reachable db fs initSession L₀
  | step {s : Session} {L : List AttendanceRecord} (e : Event)
      (h : Reachable db fs s L) :
      Reachable db fs (applyEvent db fs (s, L) e).1 (applyEvent db fs (s, L) e).2

/-- A freshly armed session for concrete scenarios: template loaded,
matching armed, counter at `c`. -/
def armedSession (e : Emb) (id : Nat) (c : Int) : Session :=
  { stored_encoding := some e, running_match := true, consecutive := c,
    sid := some id, nameF := "", courseF := "", photoF := "", regF := "",
    status := .loaded }

/-- Run a list of frame observations through `loop_frame`, collecting the
value of `consecutive` after each frame. -/
def runFrames (date time : String) (s : Session) (L : List AttendanceRecord) :
    List FrameObs → Session × List AttendanceRecord × List Int
  | [] => (s, L, [])
  | o :: os =>
      let p := loop_frame s L o date time
      let r := runFrames date time p.1 p.2 os
      (r.1, r.2.1, p.1.consecutive :: r.2.2)

/-- A frame whose first face sits at distance `0.2` from the template. -/
def matchFrame : FrameObs := .camOk (some (1/5))

/-- A frame whose first face sits at distance `0.5` from the template. -/
def missFrame : FrameObs := .camOk (some (1/2))

/-- Scenario D input: 4 matching frames, 1 non-matching frame, 5 more
matching frames. -/
def scenarioD : List FrameObs :=
  List.replicate 4 matchFrame ++ [missFrame] ++ List.replicate 5 matchFrame

/-- The match-percentage formula exactly as the spec words it:
`(1 − clamp(distance, 0, 1)) × 100`, with `clamp(d,0,1) = min (max d 0) 1`. -/
def matchPercentageSpec (d : ℚ) : ℚ := (1 - min (max d 0) 1) * 100

lemma hasRecord_false_filter {L : List AttendanceRecord} {sid : Option Nat}
    {date : String} (h : hasRecord L sid date = false) :
    L.filter (fun r => r.studentId == sid && r.date == date) = [] := by
  rw [List.filter_eq_nil_iff]
  intro a ha
  unfold hasRecord at h
  rw [List.any_eq_false] at h
  simpa using h a ha

/-- C1: committing attendance is idempotent per `(studentId, date)`: when
the ledger holds no row for the pair, the first `commit` appends exactly
one row and reports `committed`; a second `commit` for the same pair is a
silent no-op (`alreadyRecordedToday`) that leaves the ledger unchanged, so
exactly one row for the pair remains, carrying the first commit's time and
match percentage. -/
theorem commit_idempotent (L : List AttendanceRecord) (sid : Option Nat)
    (date t₁ t₂ : String) (p₁ p₂ : ℚ)
    (h : hasRecord L sid date = false) :
    (commit L sid date t₁ p₁).2 = .committed
    ∧ (commit (commit L sid date t₁ p₁).1 sid date t₂ p₂).2 = .alreadyRecordedToday
    ∧ (commit (commit L sid date t₁ p₁).1 sid date t₂ p₂).1 = (commit L sid date t₁ p₁).1
    ∧ (commit (commit L sid date t₁ p₁).1 sid date t₂ p₂).1.filter
        (fun r => r.studentId == sid && r.date == date) = [⟨sid, date, t₁, p₁⟩] := by
  have h2 : hasRecord (L ++ [⟨sid, date, t₁, p₁⟩]) sid date = true := by
    simp [hasRecord, List.any_append]
  refine ⟨?_, ?_, ?_, ?_⟩ <;>
    simp [commit, h, h2, List.filter_append, hasRecord_false_filter h]

/-- Concrete check of `commit_idempotent` on an empty ledger. -/
theorem commit_idempotent_witness :
    (commit [] (some 7) "2025-01-01" "09:00:00" 80).2 = .committed
    ∧ (commit (commit [] (some 7) "2025-01-01" "09:00:00" 80).1 (some 7)
        "2025-01-01" "10:00:00" 75).2 = .alreadyRecordedToday
    ∧ (commit (commit [] (some 7) "2025-01-01" "09:00:00" 80).1 (some 7)
        "2025-01-01" "10:00:00" 75).1 = (commit [] (some 7) "2025-01-01" "09:00:00" 80).1
    ∧ (commit (commit [] (some 7) "2025-01-01" "09:00:00" 80).1 (some 7)
        "2025-01-01" "10:00:00" 75).1.filter
        (fun r => r.studentId == some 7 && r.date == "2025-01-01")
        = [⟨some 7, "2025-01-01", "09:00:00", 80⟩] :=
  commit_idempotent [] (some 7) "2025-01-01" "09:00:00" "10:00:00" 80 75 rfl

/-- C4: the percentage computed from a face distance in `loop_frame`
equals the spec's `(1 − clamp(d,0,1)) × 100` and is monotonically
non-increasing in the distance. -/
theorem matchPercentage_formula_antitone :
    (∀ d : ℚ, pctOf d = matchPercentageSpec d)
    ∧ ∀ d₁ d₂ : ℚ, d₁ ≤ d₂ → pctOf d₂ ≤ pctOf d₁ := by
  constructor
  · intro d
    unfold pctOf matchPercentageSpec
    simp only [min_def, max_def]
    split_ifs <;> linarith
  · intro d₁ d₂ h
    unfold pctOf
    have h1 : max 0 (min 1 d₁) ≤ max 0 (min 1 d₂) :=
      max_le_max le_rfl (min_le_min le_rfl h)
    have h2 : (1 : ℚ) - max 0 (min 1 d₂) ≤ 1 - max 0 (min 1 d₁) := by linarith
    exact mul_le_mul_of_nonneg_right h2 (by norm_num)

/-- Concrete check of `matchPercentage_formula_antitone` at distances
`0.1 ≤ 0.2`. -/
theorem matchPercentage_formula_antitone_witness :
    pctOf (1/5) = matchPercentageSpec (1/5) ∧ pctOf (1/5) ≤ pctOf (1/10) :=
  ⟨matchPercentage_formula_antitone.1 (1/5),
   matchPercentage_formula_antitone.2 (1/10) (1/5) (by norm_num)⟩

lemma scan_loop_append_of_all_none {ts₁ : List ScanObs} (ts₂ : List ScanObs)
    (h : ∀ u ∈ ts₁, decodeTick u = none) :
    scan_loop (ts₁ ++ ts₂) = scan_loop ts₂ := by
  induction ts₁ with
  | nil => rfl
  | cons u us ih =>
      have hu : decodeTick u = none := h u (by simp)
      simp only [List.cons_append, scan_loop, hu]
      exact ih fun v hv => h v (by simp [hv])

lemma scan_loop_of_all_none {ts : List ScanObs} (h : ∀ u ∈ ts, decodeTick u = none) :
    scan_loop ts = none := by
  have := @scan_loop_append_of_all_none ts [] h
  simpa using this

/-- C9: a polled tick with no decodable barcode is not an error — the
scan keeps polling — and the first tick whose frame decodes stops the
polling: the remaining ticks are never consumed and the session resolves
the decoded payload through `fetch_student`. -/
theorem qr_first_decode_resolves (db : List Student) (fs : String → PhotoOutcome)
    (s : Session) (ts₁ ts₂ : List ScanObs) (t : ScanObs) (d : String)
    (hnil : ∀ u ∈ ts₁, decodeTick u = none) (hdec : decodeTick t = some d) :
    scan_loop (ts₁ ++ t :: ts₂) = some d
    ∧ start_qr_scan db fs s (ts₁ ++ t :: ts₂)
        = fetch_student db fs { s with regF := d, status := .qrDecoded d } d
    ∧ ∀ ts : List ScanObs, (∀ u ∈ ts, decodeTick u = none) → scan_loop ts = none := by
  have hfirst : scan_loop (ts₁ ++ t :: ts₂) = some d := by
    rw [scan_loop_append_of_all_none _ hnil]
    simp only [scan_loop, hdec]
  refine ⟨hfirst, ?_, fun ts hts => scan_loop_of_all_none hts⟩
  unfold start_qr_scan
  rw [hfirst]

lemma loop_frame_not_armed (s : Session) (L : List AttendanceRecord)
    (fd : Option ℚ) (date time : String)
    (h : (s.stored_encoding.isSome && s.running_match) = false) :
    loop_frame s L (.camOk fd) date time = (s, L) := by
  simp [loop_frame, h]

lemma loop_frame_searching (s : Session) (L : List AttendanceRecord)
    (date time : String)
    (h : (s.stored_encoding.isSome && s.running_match) = true) :
    loop_frame s L (.camOk none) date time = (s, L) := by
  simp [loop_frame, h]

lemma loop_frame_match_commit (s : Session) (L : List AttendanceRecord)
    (dist : ℚ) (date time : String)
    (h : (s.stored_encoding.isSome && s.running_match) = true)
    (hd : dist ≤ TOLERANCE) (hc : REQ_CONSEC ≤ s.consecutive + 1) :
    loop_frame s L (.camOk (some dist)) date time
      = ({ s with consecutive := s.consecutive + 1, running_match := false,
                  stored_encoding := none,
                  status := .attendanceSaved s.nameF (pctOf dist) },
         (commit L s.sid date time (pctOf dist)).1) := by
  simp [loop_frame, h, hd, hc]

lemma loop_frame_match_cont (s : Session) (L : List AttendanceRecord)
    (dist : ℚ) (date time : String)
    (h : (s.stored_encoding.isSome && s.running_match) = true)
    (hd : dist ≤ TOLERANCE) (hc : ¬ REQ_CONSEC ≤ s.consecutive + 1) :
    loop_frame s L (.camOk (some dist)) date time
      = ({ s with consecutive := s.consecutive + 1 }, L) := by
  simp [loop_frame, h, hd, hc]

lemma loop_frame_miss_commit (s : Session) (L : List AttendanceRecord)
    (dist : ℚ) (date time : String)
    (h : (s.stored_encoding.isSome && s.running_match) = true)
    (hd : ¬ dist ≤ TOLERANCE) (hc : REQ_CONSEC ≤ max 0 (s.consecutive - 1)) :
    loop_frame s L (.camOk (some dist)) date time
      = ({ s with consecutive := max 0 (s.consecutive - 1), running_match := false,
                  stored_encoding := none,
                  status := .attendanceSaved s.nameF (pctOf dist) },
         (commit L s.sid date time (pctOf dist)).1) := by
  simp [loop_frame, h, hd, hc]

lemma loop_frame_miss_cont (s : Session) (L : List AttendanceRecord)
    (dist : ℚ) (date time : String)
    (h : (s.stored_encoding.isSome && s.running_match) = true)
    (hd : ¬ dist ≤ TOLERANCE) (hc : ¬ REQ_CONSEC ≤ max 0 (s.consecutive - 1)) :
    loop_frame s L (.camOk (some dist)) date time
      = ({ s with consecutive := max 0 (s.consecutive - 1) }, L) := by
  simp [loop_frame, h, hd, hc]

/-- The counter facts every operation of the attendance view preserves:
the counter is non-negative, at most `REQ_CONSEC`, and strictly below
`REQ_CONSEC` whenever matching is armed. -/
def SessionInv (s : Session) : Prop :=
  0 ≤ s.consecutive ∧ s.consecutive ≤ REQ_CONSEC ∧
    (s.running_match = true → s.consecutive < REQ_CONSEC)

lemma sessionInv_of_fields {s t : Session} (h1 : t.consecutive = s.consecutive)
    (h2 : t.running_match = s.running_match) (h : SessionInv s) : SessionInv t := by
  unfold SessionInv at *
  rw [h1, h2]
  exact h

lemma start_recognition_inv {s : Session} (h : SessionInv s) :
    SessionInv (start_recognition s) := by
  unfold start_recognition
  split
  · refine ⟨le_refl 0, ?_, fun _ => ?_⟩ <;> norm_num [REQ_CONSEC]
  · exact h

lemma fetch_student_inv {db : List Student} {fs : String → PhotoOutcome}
    {s : Session} {regno : String} (h : SessionInv s) :
    SessionInv (fetch_student db fs s regno) := by
  unfold fetch_student
  split
  · exact sessionInv_of_fields rfl rfl h
  · dsimp only
    split
    · exact sessionInv_of_fields rfl rfl h
    · split
      · exact sessionInv_of_fields rfl rfl h
      · exact sessionInv_of_fields rfl rfl h
      · exact sessionInv_of_fields rfl rfl h
      · exact start_recognition_inv (sessionInv_of_fields rfl rfl h)

lemma loop_frame_inv {s : Session} {L : List AttendanceRecord} {obs : FrameObs}
    {date time : String} (h : SessionInv s) :
    SessionInv (loop_frame s L obs date time).1 := by
  obtain ⟨h0, h5, hr⟩ := h
  have hreq : REQ_CONSEC = 5 := rfl
  rcases obs with _ | fd
  · exact ⟨h0, h5, hr⟩
  · by_cases harm : (s.stored_encoding.isSome && s.running_match) = true
    · have hrun : s.running_match = true := by
        simp only [Bool.and_eq_true] at harm
        exact harm.2
      have hlt : s.consecutive < REQ_CONSEC := hr hrun
      rcases fd with _ | dist
      · rw [loop_frame_searching s L date time harm]
        exact ⟨h0, h5, hr⟩
      · by_cases hd : dist ≤ TOLERANCE
        · by_cases hc : REQ_CONSEC ≤ s.consecutive + 1
          · rw [loop_frame_match_commit s L dist date time harm hd hc]
            refine ⟨?_, ?_, fun hf => absurd hf Bool.false_ne_true⟩
            · show (0 : Int) ≤ s.consecutive + 1
              omega
            · show s.consecutive + 1 ≤ REQ_CONSEC
              rw [hreq] at hlt ⊢
              omega
          · rw [loop_frame_match_cont s L dist date time harm hd hc]
            refine ⟨?_, ?_, fun _ => ?_⟩
            · show (0 : Int) ≤ s.consecutive + 1
              omega
            · show s.consecutive + 1 ≤ REQ_CONSEC
              rw [hreq] at hc ⊢
              omega
            · show s.consecutive + 1 < REQ_CONSEC
              rw [hreq] at hc ⊢
              omega
        · by_cases hc : REQ_CONSEC ≤ max 0 (s.consecutive - 1)
          · rw [loop_frame_miss_commit s L dist date time harm hd hc]
            refine ⟨?_, ?_, fun hf => absurd hf Bool.false_ne_true⟩
            · show (0 : Int) ≤ max 0 (s.consecutive - 1)
              omega
            · show max 0 (s.consecutive - 1) ≤ REQ_CONSEC
              rw [hreq] at hlt ⊢
              omega
          · rw [loop_frame_miss_cont s L dist date time harm hd hc]
            refine ⟨?_, ?_, fun _ => ?_⟩
            · show (0 : Int) ≤ max 0 (s.consecutive - 1)
              omega
            · show max 0 (s.consecutive - 1) ≤ REQ_CONSEC
              rw [hreq] at hlt ⊢
              omega
            · show max 0 (s.consecutive - 1) < REQ_CONSEC
              rw [hreq] at hc ⊢
              omega
    · have harm' : (s.stored_encoding.isSome && s.running_match) = false :=
        Bool.not_eq_true _ ▸ (Bool.eq_false_iff.mpr harm)
      rw [loop_frame_not_armed s L fd date time harm']
      exact ⟨h0, h5, hr⟩

lemma applyEvent_inv (db : List Student) (fs : String → PhotoOutcome)
    (sl : Session × List AttendanceRecord) (e : Event) (h : SessionInv sl.1) :
    SessionInv (applyEvent db fs sl e).1 := by
  rcases e with ⟨obs, date, time⟩ | regno | ticks
  · exact loop_frame_inv h
  · simp only [applyEvent]
    split
    · exact h
    · exact fetch_student_inv h
  · simp only [applyEvent, start_qr_scan]
    rcases scan_loop ticks with _ | d
    · exact sessionInv_of_fields rfl rfl h
    · exact fetch_student_inv (sessionInv_of_fields rfl rfl h)

lemma reachable_inv {db : List Student} {fs : String → PhotoOutcome}
    {s : Session} {L : List AttendanceRecord} (h : Reachable db fs s L) :
    SessionInv s := by
  induction h with
  | init L₀ =>
      refine ⟨?_, ?_, ?_⟩ <;> norm_num [initSession, REQ_CONSEC, SessionInv]
  | step e h ih => exact applyEvent_inv _ _ _ e ih

/-- C2: per armed frame, failed extraction leaves the counter unchanged,
a distance within tolerance increments it by one, a distance beyond
tolerance decrements it by one floored at zero, and in every reachable
state of the view the counter is never negative. -/
theorem frame_counter_update (s : Session) (L : List AttendanceRecord)
    (date time : String)
    (harm : (s.stored_encoding.isSome && s.running_match) = true) :
    (loop_frame s L (.camOk none) date time).1.consecutive = s.consecutive
    ∧ (∀ dist : ℚ, dist ≤ TOLERANCE →
        (loop_frame s L (.camOk (some dist)) date time).1.consecutive
          = s.consecutive + 1)
    ∧ (∀ dist : ℚ, TOLERANCE < dist →
        (loop_frame s L (.camOk (some dist)) date time).1.consecutive
          = max 0 (s.consecutive - 1))
    ∧ ∀ (db : List Student) (fs : String → PhotoOutcome) (s2 : Session)
        (L2 : List AttendanceRecord), Reachable db fs s2 L2 → 0 ≤ s2.consecutive := by
  refine ⟨?_, ?_, ?_, fun db fs s2 L2 h => (reachable_inv h).1⟩
  · rw [loop_frame_searching s L date time harm]
  · intro dist hd
    by_cases hc : REQ_CONSEC ≤ s.consecutive + 1
    · rw [loop_frame_match_commit s L dist date time harm hd hc]
    · rw [loop_frame_match_cont s L dist date time harm hd hc]
  · intro dist hd
    have hd' : ¬ dist ≤ TOLERANCE := not_le.mpr hd
    by_cases hc : REQ_CONSEC ≤ max 0 (s.consecutive - 1)
    · rw [loop_frame_miss_commit s L dist date time harm hd' hc]
    · rw [loop_frame_miss_cont s L dist date time harm hd' hc]

/-- Concrete check of `frame_counter_update` on an armed session with
counter 2, distances 0.2 and 0.5, and the freshly opened view. -/
theorem frame_counter_update_witness :
    (loop_frame (armedSession 0 1 2) [] (.camOk none) "2025-01-01" "09:00:00").1.consecutive
        = (armedSession 0 1 2).consecutive
    ∧ (loop_frame (armedSession 0 1 2) [] (.camOk (some (1/5)))
        "2025-01-01" "09:00:00").1.consecutive = (armedSession 0 1 2).consecutive + 1
    ∧ (loop_frame (armedSession 0 1 2) [] (.camOk (some (1/2)))
        "2025-01-01" "09:00:00").1.consecutive = max 0 ((armedSession 0 1 2).consecutive - 1)
    ∧ 0 ≤ initSession.consecutive := by
  obtain ⟨a, b, c, d⟩ :=
    frame_counter_update (armedSession 0 1 2) [] "2025-01-01" "09:00:00" rfl
  exact ⟨a, b (1/5) (by norm_num [TOLERANCE]), c (1/2) (by norm_num [TOLERANCE]),
         d [] (fun _ => .missing) initSession [] (Reachable.init [])⟩

/-- C10: in every reachable state the consecutive-match counter is at
most the confirmation threshold, and strictly below it whenever matching
is armed — so no frame is ever processed with the counter already at or
above `REQ_CONSEC` while armed. -/
theorem counter_never_exceeds_threshold (db : List Student)
    (fs : String → PhotoOutcome) (s : Session) (L : List AttendanceRecord)
    (h : Reachable db fs s L) :
    s.consecutive ≤ REQ_CONSEC
    ∧ (s.running_match = true → s.consecutive < REQ_CONSEC) :=
  ⟨(reachable_inv h).2.1, (reachable_inv h).2.2⟩

/-- Concrete check of `counter_never_exceeds_threshold` at the freshly
opened view. -/
theorem counter_never_exceeds_threshold_witness :
    initSession.consecutive ≤ REQ_CONSEC
    ∧ (initSession.running_match = true → initSession.consecutive < REQ_CONSEC) :=
  counter_never_exceeds_threshold [] (fun _ => .missing) initSession []
    (Reachable.init [])

/-- Concrete check of `qr_first_decode_resolves`: one frame without a
code, then a frame decoding `" AP21 "` (stripped to `"AP21"`), then a
never-consumed tick. -/
theorem qr_first_decode_resolves_witness :
    scan_loop ([ScanObs.frame []] ++ ScanObs.frame [" AP21 "] :: [ScanObs.camFail])
      = some "AP21"
    ∧ start_qr_scan [] (fun _ => .missing) initSession
        ([ScanObs.frame []] ++ ScanObs.frame [" AP21 "] :: [ScanObs.camFail])
        = fetch_student [] (fun _ => .missing)
            { initSession with regF := "AP21", status := .qrDecoded "AP21" } "AP21"
    ∧ ∀ ts : List ScanObs, (∀ u ∈ ts, decodeTick u = none) → scan_loop ts = none :=
  qr_first_decode_resolves [] (fun _ => .missing) initSession
    [ScanObs.frame []] [ScanObs.camFail] (ScanObs.frame [" AP21 "]) "AP21"
    (by intro u hu; simp only [List.mem_singleton] at hu; subst hu; rfl)
    (by decide)

lemma fetch_student_not_found (db : List Student) (fs : String → PhotoOutcome)
    (s : Session) (regno : String)
    (hfind : db.find? (fun t => t.reg_no == regno) = none) :
    fetch_student db fs s regno
      = { s with status := .studentNotFound, nameF := "", courseF := "",
                 photoF := "", sid := none } := by
  unfold fetch_student
  rw [hfind]

lemma fetch_student_photo_missing (db : List Student) (fs : String → PhotoOutcome)
    (s : Session) (regno : String) (st : Student)
    (hfind : db.find? (fun t => t.reg_no == regno) = some st)
    (hne : ¬ st.photo_path = "") (hfs : fs st.photo_path = .missing) :
    fetch_student db fs s regno
      = { s with sid := some st.id, nameF := st.name, courseF := st.course,
                 photoF := st.photo_path, status := .photoMissing } := by
  unfold fetch_student
  rw [hfind]
  dsimp only
  rw [if_neg hne, hfs]

lemma fetch_student_load_failure (db : List Student) (fs : String → PhotoOutcome)
    (s : Session) (regno : String) (st : Student) (err : String)
    (hfind : db.find? (fun t => t.reg_no == regno) = some st)
    (hne : ¬ st.photo_path = "") (hfs : fs st.photo_path = .loadFailure err) :
    fetch_student db fs s regno
      = { s with sid := some st.id, nameF := st.name, courseF := st.course,
                 photoF := st.photo_path, stored_encoding := none,
                 status := .loadFailed err } := by
  unfold fetch_student
  rw [hfind]
  dsimp only
  rw [if_neg hne, hfs]

lemma fetch_student_no_face (db : List Student) (fs : String → PhotoOutcome)
    (s : Session) (regno : String) (st : Student)
    (hfind : db.find? (fun t => t.reg_no == regno) = some st)
    (hne : ¬ st.photo_path = "") (hfs : fs st.photo_path = .faces []) :
    fetch_student db fs s regno
      = { s with sid := some st.id, nameF := st.name, courseF := st.course,
                 photoF := st.photo_path, status := .noFaceInPhoto } := by
  unfold fetch_student
  rw [hfind]
  dsimp only
  rw [if_neg hne, hfs]

lemma fetch_student_found_faces (db : List Student) (fs : String → PhotoOutcome)
    (s : Session) (regno : String) (st : Student) (e2 : Emb) (rest : List Emb)
    (hfind : db.find? (fun t => t.reg_no == regno) = some st)
    (hne : ¬ st.photo_path = "") (hfs : fs st.photo_path = .faces (e2 :: rest)) :
    fetch_student db fs s regno
      = { s with sid := some st.id, nameF := st.name, courseF := st.course,
                 photoF := st.photo_path, stored_encoding := some e2,
                 status := .loaded, running_match := true, consecutive := 0 } := by
  unfold fetch_student
  rw [hfind]
  dsimp only
  rw [if_neg hne, hfs]
  dsimp only
  unfold start_recognition
  simp

/-- C3 fails on the code: running Scenario D (4 matches, 1 miss, 5
matches at tolerance 0.4 and threshold 5) from a freshly armed session
produces the counter trace 1,2,3,4,3,4,5,5,5,5 — not the claimed
1,2,3,4,3,4,5,6,7,8 — because the frame that brings the counter to the
threshold commits and disarms immediately. -/
theorem scenarioD_claimed_trace_false :
    (runFrames "2025-01-01" "09:00:00" (armedSession 0 1 0) [] scenarioD).2.2
      = [1, 2, 3, 4, 3, 4, 5, 5, 5, 5]
    ∧ (runFrames "2025-01-01" "09:00:00" (armedSession 0 1 0) [] scenarioD).2.2
      ≠ [1, 2, 3, 4, 3, 4, 5, 6, 7, 8] := by
  have h : (runFrames "2025-01-01" "09:00:00" (armedSession 0 1 0) [] scenarioD).2.2
      = [1, 2, 3, 4, 3, 4, 5, 5, 5, 5] := by
    norm_num [runFrames, loop_frame, armedSession, matchFrame, missFrame, scenarioD,
      TOLERANCE, REQ_CONSEC, pctOf, commit, hasRecord]
  exact ⟨h, by rw [h]; decide⟩

/-- C3 amended: under Scenario D the counter sequence is
1,2,3,4,3,4,5,5,5,5; the single miss only decrements, it does not reset
progress; confirmation — the commit that disarms matching — happens on
the 7th frame overall, at counter value 5, and the three remaining
frames change neither the session nor the ledger. -/
theorem scenarioD_actual_behavior :
    (runFrames "2025-01-01" "09:00:00" (armedSession 0 1 0) [] scenarioD).2.2
      = [1, 2, 3, 4, 3, 4, 5, 5, 5, 5]
    ∧ (runFrames "2025-01-01" "09:00:00" (armedSession 0 1 0) []
        (scenarioD.take 6)).1.running_match = true
    ∧ (runFrames "2025-01-01" "09:00:00" (armedSession 0 1 0) []
        (scenarioD.take 6)).2.1 = []
    ∧ (runFrames "2025-01-01" "09:00:00" (armedSession 0 1 0) []
        (scenarioD.take 7)).1.running_match = false
    ∧ (runFrames "2025-01-01" "09:00:00" (armedSession 0 1 0) []
        (scenarioD.take 7)).1.consecutive = 5
    ∧ (runFrames "2025-01-01" "09:00:00" (armedSession 0 1 0) []
        (scenarioD.take 7)).2.1 = [⟨some 1, "2025-01-01", "09:00:00", 80⟩]
    ∧ (runFrames "2025-01-01" "09:00:00" (armedSession 0 1 0) [] scenarioD).2.1
      = [⟨some 1, "2025-01-01", "09:00:00", 80⟩] := by
  refine ⟨?_, ?_, ?_, ?_, ?_, ?_, ?_⟩ <;>
    norm_num [runFrames, loop_frame, armedSession, matchFrame, missFrame, scenarioD,
      TOLERANCE, REQ_CONSEC, pctOf, commit, hasRecord]

/-- C7: from a freshly armed session and an empty ledger, five
consecutive frames at distance 0.2 (below the 0.4 tolerance) confirm:
matching is disarmed, the template is cleared, and exactly one
attendance row is created, with match percentage 80. -/
theorem scenarioC_confirms (e : Emb) (id : Nat) (date time : String) :
    (runFrames date time (armedSession e id 0) []
        (List.replicate 5 matchFrame)).2.1 = [⟨some id, date, time, 80⟩]
    ∧ (runFrames date time (armedSession e id 0) []
        (List.replicate 5 matchFrame)).1.running_match = false
    ∧ (runFrames date time (armedSession e id 0) []
        (List.replicate 5 matchFrame)).1.stored_encoding = none := by
  refine ⟨?_, ?_, ?_⟩ <;>
    norm_num [runFrames, loop_frame, armedSession, matchFrame,
      TOLERANCE, REQ_CONSEC, pctOf, commit, hasRecord]

/-- C6 fails on the code: the confirming frame clears the template and
disarms matching but does NOT clear the counter — confirming from
counter 4 leaves it at 5, not 0 (it is only re-zeroed when the next
candidate is armed). -/
theorem confirm_transition_keeps_counter :
    (loop_frame (armedSession 0 1 4) [] (.camOk (some (1/5)))
        "2025-01-01" "09:00:00").1.stored_encoding = none
    ∧ (loop_frame (armedSession 0 1 4) [] (.camOk (some (1/5)))
        "2025-01-01" "09:00:00").1.running_match = false
    ∧ (loop_frame (armedSession 0 1 4) [] (.camOk (some (1/5)))
        "2025-01-01" "09:00:00").1.consecutive = 5
    ∧ (5 : Int) ≠ 0 := by
  refine ⟨?_, ?_, ?_, by decide⟩ <;>
    norm_num [loop_frame, armedSession, TOLERANCE, REQ_CONSEC, pctOf, commit, hasRecord]

/-- C6 amended: on the confirming frame the session clears the stored
template, disarms matching and updates only the status, leaving the
identity fields untouched; the counter is NOT cleared (it holds the
threshold value just reached). The camera loop keeps running — further
frames leave the disarmed session unchanged — and a subsequent
successful fetch arms a new candidate with the counter reset to 0. -/
theorem confirm_transition_effect (s : Session) (L : List AttendanceRecord)
    (dist : ℚ) (date time : String)
    (harm : (s.stored_encoding.isSome && s.running_match) = true)
    (hd : dist ≤ TOLERANCE) (hc : REQ_CONSEC ≤ s.consecutive + 1) :
    loop_frame s L (.camOk (some dist)) date time
      = ({ s with consecutive := s.consecutive + 1, running_match := false,
                  stored_encoding := none,
                  status := .attendanceSaved s.nameF (pctOf dist) },
         (commit L s.sid date time (pctOf dist)).1)
    ∧ (∀ (fd : Option ℚ) (L2 : List AttendanceRecord) (d2 t2 : String),
        loop_frame (loop_frame s L (.camOk (some dist)) date time).1 L2
            (.camOk fd) d2 t2
          = ((loop_frame s L (.camOk (some dist)) date time).1, L2))
    ∧ ∀ (db : List Student) (fs : String → PhotoOutcome) (regno : String)
        (st : Student) (e2 : Emb) (rest : List Emb),
        db.find? (fun t => t.reg_no == regno) = some st
        → ¬ st.photo_path = ""
        → fs st.photo_path = .faces (e2 :: rest)
        → ((fetch_student db fs (loop_frame s L (.camOk (some dist)) date time).1
              regno).running_match = true
          ∧ (fetch_student db fs (loop_frame s L (.camOk (some dist)) date time).1
              regno).consecutive = 0
          ∧ (fetch_student db fs (loop_frame s L (.camOk (some dist)) date time).1
              regno).stored_encoding = some e2) := by
  have he := loop_frame_match_commit s L dist date time harm hd hc
  refine ⟨he, ?_, ?_⟩
  · intro fd L2 d2 t2
    rw [he]
    exact loop_frame_not_armed _ L2 fd d2 t2 rfl
  · intro db fs regno st e2 rest hfind hne hfs
    rw [he, fetch_student_found_faces db fs _ regno st e2 rest hfind hne hfs]
    exact ⟨rfl, rfl, rfl⟩

/-- The students table used by the concrete checks. -/
def dbOne : List Student :=
  [⟨1, "R1", "Alice", "CS", "999", "photos/R1.jpg"⟩]

/-- Concrete check of `confirm_transition_effect`: armed at counter 4,
a frame at distance 0.2 confirms. -/
theorem confirm_transition_effect_witness :
    loop_frame (armedSession 0 1 4) [] (.camOk (some (1/5))) "2025-01-01" "09:00:00"
      = ({ armedSession 0 1 4 with
             consecutive := (armedSession 0 1 4).consecutive + 1,
             running_match := false, stored_encoding := none,
             status := .attendanceSaved (armedSession 0 1 4).nameF (pctOf (1/5)) },
         (commit [] (armedSession 0 1 4).sid "2025-01-01" "09:00:00" (pctOf (1/5))).1)
    ∧ (∀ (fd : Option ℚ) (L2 : List AttendanceRecord) (d2 t2 : String),
        loop_frame (loop_frame (armedSession 0 1 4) [] (.camOk (some (1/5)))
            "2025-01-01" "09:00:00").1 L2 (.camOk fd) d2 t2
          = ((loop_frame (armedSession 0 1 4) [] (.camOk (some (1/5)))
              "2025-01-01" "09:00:00").1, L2))
    ∧ ∀ (db : List Student) (fs : String → PhotoOutcome) (regno : String)
        (st : Student) (e2 : Emb) (rest : List Emb),
        db.find? (fun t => t.reg_no == regno) = some st
        → ¬ st.photo_path = ""
        → fs st.photo_path = .faces (e2 :: rest)
        → ((fetch_student db fs (loop_frame (armedSession 0 1 4) []
              (.camOk (some (1/5))) "2025-01-01" "09:00:00").1
              regno).running_match = true
          ∧ (fetch_student db fs (loop_frame (armedSession 0 1 4) []
              (.camOk (some (1/5))) "2025-01-01" "09:00:00").1
              regno).consecutive = 0
          ∧ (fetch_student db fs (loop_frame (armedSession 0 1 4) []
              (.camOk (some (1/5))) "2025-01-01" "09:00:00").1
              regno).stored_encoding = some e2) :=
  confirm_transition_effect (armedSession 0 1 4) [] (1/5) "2025-01-01" "09:00:00"
    rfl (by norm_num [TOLERANCE]) (by norm_num [REQ_CONSEC, armedSession])

/-- C5 fails on the code: fetching an unknown identifier while matching
is armed leaves the candidate template, the armed flag and the
in-flight counter untouched — they are not discarded. -/
theorem notFound_keeps_matching_state :
    ([] : List Student).find? (fun t => t.reg_no == "ZZ") = none
    ∧ (fetch_student [] (fun _ => .missing) (armedSession 2 1 3) "ZZ").stored_encoding
      = some 2
    ∧ (fetch_student [] (fun _ => .missing) (armedSession 2 1 3) "ZZ").running_match
      = true
    ∧ (fetch_student [] (fun _ => .missing) (armedSession 2 1 3) "ZZ").consecutive = 3
    ∧ (fetch_student [] (fun _ => .missing) (armedSession 2 1 3) "ZZ").status
      = .studentNotFound :=
  ⟨rfl, rfl, rfl, rfl, rfl⟩

/-- C5 amended: resolving an identifier that matches no registered
student surfaces the "Student not found." status and clears only the
identity display fields (student id, name, course, photo path); the
candidate template, the armed flag and the consecutive-match counter
are NOT discarded — if matching was armed it continues against the
previous template. -/
theorem notFound_clears_identity_only (db : List Student)
    (fs : String → PhotoOutcome) (s : Session) (regno : String)
    (h : ∀ st ∈ db, st.reg_no ≠ regno) :
    fetch_student db fs s regno
      = { s with status := .studentNotFound, nameF := "", courseF := "",
                 photoF := "", sid := none } :=
  fetch_student_not_found db fs s regno
    (List.find?_eq_none.2 fun st hst => by simpa using h st hst)

/-- Concrete check of `notFound_clears_identity_only` on a one-student
table and the identifier "ZZ". -/
theorem notFound_clears_identity_only_witness :
    fetch_student dbOne (fun _ => .missing) (armedSession 2 1 3) "ZZ"
      = { armedSession 2 1 3 with
          status := .studentNotFound, nameF := "",
          courseF := "", photoF := "", sid := none } :=
  notFound_clears_identity_only dbOne (fun _ => .missing) (armedSession 2 1 3) "ZZ"
    (by intro st hst; simp only [dbOne, List.mem_singleton] at hst; subst hst; decide)

/-- C8 fails on the code: an unreadable (but present) enrollment photo
takes the exception branch, which sets a status distinct from the
missing-photo status AND clears the stored template — so the failure is
not the single `PhotoMissing` outcome and it does commit state beyond
the status. -/
theorem loadTemplate_unreadable_counterexample :
    (armedSession 2 1 3).stored_encoding = some 2
    ∧ (fetch_student dbOne (fun _ => .loadFailure "bad file") (armedSession 2 1 3)
        "R1").stored_encoding = none
    ∧ (fetch_student dbOne (fun _ => .loadFailure "bad file") (armedSession 2 1 3)
        "R1").status = .loadFailed "bad file"
    ∧ (fetch_student dbOne (fun _ => .loadFailure "bad file") (armedSession 2 1 3)
        "R1").status ≠ .photoMissing := by
  refine ⟨rfl, ?_, ?_, ?_⟩ <;>
    simp [fetch_student, dbOne, start_recognition]

/-- C8 amended: template loading for a resolved student has four
outcomes, not three: success stores the first detected face's embedding
and arms matching; an absent photo reference yields the missing-photo
status; zero detected faces yields the distinct no-face status; an
unreadable photo raises a handled error that yields a third distinct
status and additionally clears the stored template. The absent-photo
and no-face failures change nothing in the session beyond the status
(and the identity fields set by resolution), and none of the failures
crashes the session or touches the ledger. -/
theorem loadTemplate_outcomes (db : List Student) (fs : String → PhotoOutcome)
    (s : Session) (regno : String) (st : Student)
    (hfind : db.find? (fun t => t.reg_no == regno) = some st)
    (hne : ¬ st.photo_path = "") :
    (fs st.photo_path = .missing →
      fetch_student db fs s regno
        = { s with sid := some st.id, nameF := st.name, courseF := st.course,
                   photoF := st.photo_path, status := .photoMissing })
    ∧ (fs st.photo_path = .faces [] →
      fetch_student db fs s regno
        = { s with sid := some st.id, nameF := st.name, courseF := st.course,
                   photoF := st.photo_path, status := .noFaceInPhoto })
    ∧ (∀ err : String, fs st.photo_path = .loadFailure err →
      fetch_student db fs s regno
        = { s with sid := some st.id, nameF := st.name, courseF := st.course,
                   photoF := st.photo_path, stored_encoding := none,
                   status := .loadFailed err })
    ∧ (∀ (e2 : Emb) (rest : List Emb), fs st.photo_path = .faces (e2 :: rest) →
      fetch_student db fs s regno
        = { s with sid := some st.id, nameF := st.name, courseF := st.course,
                   photoF := st.photo_path, stored_encoding := some e2,
                   status := .loaded, running_match := true, consecutive := 0 })
    ∧ (Status.photoMissing ≠ Status.noFaceInPhoto
      ∧ ∀ err : String,
          Status.loadFailed err ≠ Status.photoMissing
          ∧ Status.loadFailed err ≠ Status.noFaceInPhoto) := by
  refine ⟨fun hfs => fetch_student_photo_missing db fs s regno st hfind hne hfs,
          fun hfs => fetch_student_no_face db fs s regno st hfind hne hfs,
          fun err hfs => fetch_student_load_failure db fs s regno st err hfind hne hfs,
          fun e2 rest hfs => fetch_student_found_faces db fs s regno st e2 rest hfind hne hfs,
          by simp, fun err => ⟨by simp, by simp⟩⟩

/-- Concrete check of `loadTemplate_outcomes` on the one-student table. -/
theorem loadTemplate_outcomes_witness :
    ((fun _ : String => PhotoOutcome.missing) "photos/R1.jpg" = .missing →
      fetch_student dbOne (fun _ => PhotoOutcome.missing) initSession "R1"
        = { initSession with
            sid := some 1, nameF := "Alice", courseF := "CS",
            photoF := "photos/R1.jpg", status := .photoMissing })
    ∧ ((fun _ : String => PhotoOutcome.missing) "photos/R1.jpg" = .faces [] →
      fetch_student dbOne (fun _ => PhotoOutcome.missing) initSession "R1"
        = { initSession with
            sid := some 1, nameF := "Alice", courseF := "CS",
            photoF := "photos/R1.jpg", status := .noFaceInPhoto })
    ∧ (∀ err : String,
        (fun _ : String => PhotoOutcome.missing) "photos/R1.jpg" = .loadFailure err →
      fetch_student dbOne (fun _ => PhotoOutcome.missing) initSession "R1"
        = { initSession with
            sid := some 1, nameF := "Alice", courseF := "CS",
            photoF := "photos/R1.jpg", stored_encoding := none,
            status := .loadFailed err })
    ∧ (∀ (e2 : Emb) (rest : List Emb),
        (fun _ : String => PhotoOutcome.missing) "photos/R1.jpg" = .faces (e2 :: rest) →
      fetch_student dbOne (fun _ => PhotoOutcome.missing) initSession "R1"
        = { initSession with
            sid := some 1, nameF := "Alice", courseF := "CS",
            photoF := "photos/R1.jpg", stored_encoding := some e2,
            status := .loaded, running_match := true, consecutive := 0 })
    ∧ (Status.photoMissing ≠ Status.noFaceInPhoto
      ∧ ∀ err : String,
          Status.loadFailed err ≠ Status.photoMissing
          ∧ Status.loadFailed err ≠ Status.noFaceInPhoto) :=
  loadTemplate_outcomes dbOne (fun _ => PhotoOutcome.missing) initSession "R1"
    ⟨1, "R1", "Alice", "CS", "999", "photos/R1.jpg"⟩ (by simp [dbOne]) (by decide)

end AutoAttendance
